import Mathlib

/-!
Shallow embedding of the `hiisi-simulator` driver (`src/hiisi-simulator/src/main.rs`).

Buffers are modelled as `List Nat`, one entry per byte (all constants here are
ASCII, and no byte arithmetic overflows).  The external collaborators — the
ChaCha8 random generator, the protocol encoder `hiisi::proto::format_msg`, the
`httparse` response parser and `std::str::from_utf8` — are modelled as stated
in their doc comments; everything else is translated directly from `main.rs`.
-/

namespace HiisiSim

/-- Bytes of an ASCII string: one `Nat` per character. -/
def asciiBytes (s : String) : List Nat :=
  s.data.map Char.toNat

/-- Is `b` the byte of an ASCII decimal digit? -/
def isDigitByte (b : Nat) : Bool := decide (48 ≤ b ∧ b ≤ 57)

/-- Decimal value of a list of ASCII digit bytes. -/
def decodeDigitBytes (ds : List Nat) : Nat :=
  ds.foldl (fun a b => 10 * a + (b - 48)) 0

/-- `TEST_DATABASE_NAME` constant from `main.rs`. -/
def TEST_DATABASE_NAME : String := "test"

/-- `TEST_DATABASE_HOST` constant from `main.rs`. -/
def TEST_DATABASE_HOST : String := "test.localhost"

/-! ### Protocol request data model

The `hiisi::proto` types are external; their fields are modelled from the
construction site in `perform_client_req` (only the fields that call site
sets).  `args`/`named_args` element types are irrelevant (both are empty
vectors there) and are modelled as `String`-valued. -/

structure Stmt where
  sql : Option String
  sql_id : Option Int
  args : List String
  named_args : List (String × String)
  want_rows : Option Bool
  replication_index : Option Nat
deriving DecidableEq

structure ExecuteStreamReq where
  stmt : Stmt
deriving DecidableEq

inductive StreamRequest where
  | Execute (req : ExecuteStreamReq)
deriving DecidableEq

structure PipelineReqBody where
  baton : Option String
  requests : List StreamRequest
deriving DecidableEq

/-- The statement built in `perform_client_req`: `SELECT 1` with
`want_rows = Some(true)` and every other field empty. -/
def selectOneStmt : Stmt :=
  { sql := some "SELECT 1"
    sql_id := none
    args := []
    named_args := []
    want_rows := some true
    replication_index := none }

/-- The pipelined request body built in `perform_client_req`:
`PipelineReqBody { baton: None, requests: vec![Execute(..)] }`. -/
def pipelineReq : PipelineReqBody :=
  { baton := none
    requests := [StreamRequest.Execute ⟨selectOneStmt⟩] }

/-! ### HTTP framing (`perform_client_req`) -/

/-- The HTTP header text produced by the `format!` call in
`perform_client_req`, for a serialized body of `bodyLen` bytes.
`Nat.repr` models Rust's decimal `Display` of `buf.len()`. -/
def httpHeaderString (bodyLen : Nat) : String :=
  "POST /v2/pipeline HTTP/1.1\r\nHost: " ++ TEST_DATABASE_HOST ++
    "\r\nContent-Length: " ++ Nat.repr bodyLen ++ "\r\n\r\n"

/-- The fixed part of the header that precedes the `Content-Length` value. -/
def headerPreBytes : List Nat :=
  asciiBytes ("POST /v2/pipeline HTTP/1.1\r\nHost: " ++ TEST_DATABASE_HOST ++
    "\r\nContent-Length: ")

/-- The full `http_req` buffer built by `perform_client_req`: header bytes
followed by the serialized protocol body.  `format_msg` is the external
`hiisi::proto::format_msg` serializer, passed as a parameter. -/
def client_http_req (format_msg : PipelineReqBody → List Nat) : List Nat :=
  let buf := format_msg pipelineReq
  asciiBytes (httpHeaderString buf.length) ++ buf

/-- The `Content-Length` value transmitted in a request buffer: the ASCII
digit run right after the fixed header text `"POST .. Content-Length: "`. -/
def contentLengthDigits (req : List Nat) : List Nat :=
  (req.drop headerPreBytes.length).takeWhile isDigitByte

/-! ### Fault injection -/

/-- The `PerformClientReqFault` enum from `main.rs`. -/
inductive PerformClientReqFault where
  | Normal
  | Fuzz
deriving DecidableEq

/-- `gen_perform_client_req_fault` from `main.rs`.  The generator state is
`(seed, rng)` where `rng` counts the draws consumed so far; `gen seed i`
models the external deterministic ChaCha8 generator's `gen_bool(0.9)` result
on its `i`-th draw after `seed_from_u64(seed)` (`true` ↦ `Normal`, drawn with
probability 0.9; `false` ↦ `Fuzz`).  `gen_bool` consumes a fixed number of
generator words per call, modelled as the single increment `rng + 1`. -/
def gen_perform_client_req_fault (gen : Nat → Nat → Bool) (seed rng : Nat) :
    PerformClientReqFault × Nat :=
  (if gen seed rng then .Normal else .Fuzz, rng + 1)

/-- Literal `b"FUZZ FUZZ FUZZ"` from `send_client_msg`. -/
def fuzzBytes : List Nat := asciiBytes "FUZZ FUZZ FUZZ"

/-- What `send_client_msg` hands to `io.send`: the buffer, the expected
length argument `n`, and which continuation chain (`on_client_send_normal`
vs `on_client_send_fuzz`, identified by the fault class) is registered. -/
structure SendOp where
  buf : List Nat
  n : Nat
  handler : PerformClientReqFault
deriving DecidableEq

/-- `send_client_msg` from `main.rs`: draw the fault, then either send `buf`
with continuation `on_client_send_normal`, or send the literal fuzz bytes
(with the unchanged length argument `n`) with continuation
`on_client_send_fuzz`. -/
def send_client_msg (gen : Nat → Nat → Bool) (seed rng : Nat)
    (buf : List Nat) (n : Nat) : SendOp × Nat :=
  match gen_perform_client_req_fault gen seed rng with
  | (.Normal, rng') => ({ buf := buf, n := n, handler := .Normal }, rng')
  | (.Fuzz, rng') => ({ buf := fuzzBytes, n := n, handler := .Fuzz }, rng')

/-- `perform_client_req` from `main.rs`: build the pipelined request, frame
it with the HTTP header, and pass it with its total length to
`send_client_msg`. -/
def perform_client_req (format_msg : PipelineReqBody → List Nat)
    (gen : Nat → Nat → Bool) (seed rng : Nat) : SendOp × Nat :=
  let http_req := client_http_req format_msg
  send_client_msg gen seed rng http_req http_req.length

/-! ### HTTP response parsing (the oracle's input)

`on_client_recv_normal`/`on_client_recv_fuzz` parse the raw bytes with the
external `httparse` crate.  Modelled from the spec: "parse the raw bytes
returned by `receive` as a status-line-plus-headers response, extract the
numeric status code and the body offset".  `parseResponse?` returning `none`
models the `.unwrap().unwrap()` panic on a malformed or partial response. -/

/-- Split a byte list at the first occurrence of `pat`, returning the bytes
before and after the occurrence. -/
def splitOnSeq? (pat : List Nat) : List Nat → Option (List Nat × List Nat)
  | [] => none
  | b :: rest =>
    if pat.isPrefixOf (b :: rest) then some ([], (b :: rest).drop pat.length)
    else
      match splitOnSeq? pat rest with
      | some (bs, as_) => some (b :: bs, as_)
      | none => none

/-- Bytes of `"\r\n\r\n"`, the header/body separator. -/
def crlf2B : List Nat := asciiBytes "\r\n\r\n"

/-- Parsed response: numeric status code plus the raw status-line-and-headers
block (everything before the blank line), as `httparse` exposes them. -/
structure ParsedResponse where
  code : Nat
  headersRaw : List Nat
deriving DecidableEq

/-- Extract the three-digit status code from the status line
`HTTP/1.1 NNN ...`. -/
def parseStatusCode? (head : List Nat) : Option Nat :=
  if (asciiBytes "HTTP/1.1 ").isPrefixOf head then
    let digits := (head.drop 9).takeWhile isDigitByte
    if digits.length = 3 then some (decodeDigitBytes digits) else none
  else none

/-- Parse a complete HTTP response buffer into the parsed response and the
body offset; `none` models the fatal `unwrap` panic on a partial or
malformed response. -/
def parseResponse? (buf : List Nat) : Option (ParsedResponse × Nat) :=
  match splitOnSeq? crlf2B buf with
  | none => none
  | some (head, _) =>
    match parseStatusCode? head with
    | none => none
    | some code => some ({ code := code, headersRaw := head }, head.length + 4)

/-! ### UTF-8 decoding (`std::str::from_utf8`)

The handlers call `std::str::from_utf8(&buf[body_off..]).unwrap()` before
printing.  `utf8Decode?` is the strict UTF-8 decoder: `none` exactly when
`from_utf8` returns `Err` (and the `unwrap` panics). -/

/-- Is `b` a UTF-8 continuation byte (`0x80..=0xBF`)? -/
def isCont (b : Nat) : Bool := decide (0x80 ≤ b ∧ b ≤ 0xBF)

/-- Strict UTF-8 decoding of a byte list; `none` on any encoding error
(invalid lead byte, truncated sequence, bad continuation, overlong form or
surrogate). -/
def utf8Decode? : List Nat → Option (List Char)
  | [] => some []
  | b :: rest =>
    if b ≤ 0x7F then
      (utf8Decode? rest).map (fun cs => Char.ofNat b :: cs)
    else if 0xC2 ≤ b ∧ b ≤ 0xDF then
      match rest with
      | c1 :: rest₂ =>
        if isCont c1 then
          (utf8Decode? rest₂).map
            (fun cs => Char.ofNat ((b - 0xC0) * 0x40 + (c1 - 0x80)) :: cs)
        else none
      | [] => none
    else if 0xE0 ≤ b ∧ b ≤ 0xEF then
      match rest with
      | c1 :: c2 :: rest₃ =>
        let c1ok : Bool :=
          if b = 0xE0 then decide (0xA0 ≤ c1 ∧ c1 ≤ 0xBF)
          else if b = 0xED then decide (0x80 ≤ c1 ∧ c1 ≤ 0x9F)
          else isCont c1
        if c1ok && isCont c2 then
          (utf8Decode? rest₃).map
            (fun cs =>
              Char.ofNat ((b - 0xE0) * 0x1000 + (c1 - 0x80) * 0x40 + (c2 - 0x80)) :: cs)
        else none
      | _ => none
    else if 0xF0 ≤ b ∧ b ≤ 0xF4 then
      match rest with
      | c1 :: c2 :: c3 :: rest₄ =>
        let c1ok : Bool :=
          if b = 0xF0 then decide (0x90 ≤ c1 ∧ c1 ≤ 0xBF)
          else if b = 0xF4 then decide (0x80 ≤ c1 ∧ c1 ≤ 0x8F)
          else isCont c1
        if c1ok && isCont c2 && isCont c3 then
          (utf8Decode? rest₄).map
            (fun cs =>
              Char.ofNat ((b - 0xF0) * 0x40000 + (c1 - 0x80) * 0x1000 +
                (c2 - 0x80) * 0x40 + (c3 - 0x80)) :: cs)
        else none
      | _ => none
    else none

/-! ### Response oracle (`on_client_recv_normal` / `on_client_recv_fuzz`) -/

/-- Outcome of a receive continuation: `proceed` (validation passed, the
driver calls `perform_client_req` again), `fatalAssert` (the handler printed
the parsed response and the body, then the `assert_eq!` failed), or
`panicked` (an `unwrap` panicked before anything was printed). -/
inductive RecvOutcome where
  | proceed
  | fatalAssert (resp : ParsedResponse) (body : List Char)
  | panicked
deriving DecidableEq

/-- `on_client_recv_normal` from `main.rs`: parse (unwrap), and when the
status differs from 200, decode the body as UTF-8 (unwrap), print the parsed
response and body, and fail the `assert_eq!(code, 200)`; otherwise continue
with the next `perform_client_req`. -/
def on_client_recv_normal (buf : List Nat) : RecvOutcome :=
  match parseResponse? buf with
  | none => .panicked
  | some (resp, body_off) =>
    if resp.code ≠ 200 then
      match utf8Decode? (buf.drop body_off) with
      | none => .panicked
      | some body => .fatalAssert resp body
    else .proceed

/-- `on_client_recv_fuzz` from `main.rs`: identical to the normal handler
but expecting status 400. -/
def on_client_recv_fuzz (buf : List Nat) : RecvOutcome :=
  match parseResponse? buf with
  | none => .panicked
  | some (resp, body_off) =>
    if resp.code ≠ 400 then
      match utf8Decode? (buf.drop body_off) with
      | none => .panicked
      | some body => .fatalAssert resp body
    else .proceed

/-- Expected response status for each fault class, as encoded by which
receive continuation the send path registers. -/
def expectedStatus : PerformClientReqFault → Nat
  | .Normal => 200
  | .Fuzz => 400

/-- Dispatch of the receive continuation registered for a cycle:
`on_client_send_normal` registers `on_client_recv_normal` and
`on_client_send_fuzz` registers `on_client_recv_fuzz`. -/
def recvHandlerFor : PerformClientReqFault → List Nat → RecvOutcome
  | .Normal => on_client_recv_normal
  | .Fuzz => on_client_recv_fuzz

/-! ### The request/response cycle machine

One cycle: `perform_client_req` builds and (fault-injected) sends, the
environment `env k` supplies the response bytes the scheduler delivers for
cycle `k`, and the registered receive continuation validates them. -/

/-- One simulation cycle starting with generator state `rng`: the send
operation submitted, the generator state after the draw, and the outcome of
the receive continuation on the response `resp`. -/
def runCycle (format_msg : PipelineReqBody → List Nat) (gen : Nat → Nat → Bool)
    (seed rng : Nat) (resp : List Nat) : SendOp × Nat × RecvOutcome :=
  let (op, rng') := perform_client_req format_msg gen seed rng
  (op, rng', recvHandlerFor op.handler resp)

/-- Generator state at the start of cycle `k` of a run (seed `seed`,
responses supplied by `env`); `none` when an earlier cycle already
terminated the run. -/
def runRng? (format_msg : PipelineReqBody → List Nat) (gen : Nat → Nat → Bool)
    (seed : Nat) (env : Nat → List Nat) : Nat → Option Nat
  | 0 => some 0
  | k + 1 =>
    match runRng? format_msg gen seed env k with
    | none => none
    | some rng =>
      let (_, rng', outcome) := runCycle format_msg gen seed rng (env k)
      if outcome = .proceed then some rng' else none

/-- The fault decision drawn at cycle `k` of a run, when the run reaches
cycle `k`. -/
def cycleFault? (format_msg : PipelineReqBody → List Nat)
    (gen : Nat → Nat → Bool) (seed : Nat) (env : Nat → List Nat) (k : Nat) :
    Option PerformClientReqFault :=
  (runRng? format_msg gen seed env k).map
    (fun rng => (gen_perform_client_req_fault gen seed rng).1)

/-- The send operation submitted at cycle `k` of a run, when the run reaches
cycle `k`. -/
def cycleSendOp? (format_msg : PipelineReqBody → List Nat)
    (gen : Nat → Nat → Bool) (seed : Nat) (env : Nat → List Nat) (k : Nat) :
    Option SendOp :=
  (runRng? format_msg gen seed env k).map
    (fun rng => (runCycle format_msg gen seed rng (env k)).1)

/-! ### Concrete instances used to exercise the model -/

/-- A concrete stand-in for the external protocol serializer. -/
def demoFormatMsg : PipelineReqBody → List Nat := fun _ => asciiBytes "demo"

/-- A generator whose `gen_bool(0.9)` draw always comes out `true`
(every cycle Normal). -/
def genAllNormal : Nat → Nat → Bool := fun _ _ => true

/-- A generator whose `gen_bool(0.9)` draw always comes out `false`
(every cycle Fuzz). -/
def genAllFuzz : Nat → Nat → Bool := fun _ _ => false

/-- A well-formed 200 response buffer. -/
def ok200Resp : List Nat := asciiBytes "HTTP/1.1 200 OK\r\n\r\n"

/-- A well-formed 400 response buffer. -/
def ok400Resp : List Nat := asciiBytes "HTTP/1.1 400 Bad Request\r\n\r\n"

/-- An environment answering 200 at every cycle. -/
def envOk200 : Nat → List Nat := fun _ => ok200Resp

/-- An environment answering 400 at every cycle. -/
def envOk400 : Nat → List Nat := fun _ => ok400Resp

/-- A response whose status (500) mismatches both expectations and whose
body is the single byte `0xFF`, which is not valid UTF-8. -/
def c7Buf : List Nat := asciiBytes "HTTP/1.1 500 Oops\r\n\r\n" ++ [255]

/-- A response whose status (500) mismatches both expectations and whose
body `err` is valid UTF-8. -/
def c7GoodBuf : List Nat := asciiBytes "HTTP/1.1 500 Oops\r\n\r\nerr"

/-! ### Startup (`main`) -/

/-- Rust's `str::parse::<u64>`: an optional leading `+` sign, then one or
more ASCII digits and nothing else, with the value fitting in 64 bits;
`none` models the `Err` that makes `unwrap` panic. -/
def parse_u64? (s : String) : Option Nat :=
  let digits := match s.data with
    | '+' :: rest => rest
    | cs => cs
  if digits ≠ [] ∧ digits.all Char.isDigit then
    let v := digits.foldl (fun a c => 10 * a + (c.toNat - 48)) 0
    if v < 2 ^ 64 then some v else none
  else none

/-- Observable startup steps of `main`, in program order. -/
inductive StartupEvent where
  | logInit
  | seedChosen (seed : Nat)
  | dbCreated (name : String)
  | serverBound
  | clientConnectIssued
  | loopEntered
deriving DecidableEq

/-- Startup sequence of `main`: the events performed in order, and whether
startup panicked.  `seedEnv` is the value of the `SEED` environment variable
(if set) and `freshSeed` the value `rand::thread_rng().next_u64()` would
return when it is not.  A parse failure panics (`unwrap`) right after logger
initialization, before the database is created, any socket is opened or the
simulation loop is entered. -/
def main_startup (seedEnv : Option String) (freshSeed : Nat) :
    List StartupEvent × Bool :=
  match seedEnv with
  | some s =>
    match parse_u64? s with
    | none => ([.logInit], true)
    | some seed =>
      ([.logInit, .seedChosen seed, .dbCreated TEST_DATABASE_NAME,
        .serverBound, .clientConnectIssued, .loopEntered], false)
  | none =>
    ([.logInit, .seedChosen freshSeed, .dbCreated TEST_DATABASE_NAME,
      .serverBound, .clientConnectIssued, .loopEntered], false)

/-! ### Helper lemmas: ASCII bytes and decimal digits -/

theorem asciiBytes_append (s t : String) :
    asciiBytes (s ++ t) = asciiBytes s ++ asciiBytes t := by
  simp [asciiBytes]

theorem toDigitsCore_append :
    ∀ (fuel n : Nat) (ds : List Char),
      Nat.toDigitsCore 10 fuel n ds = Nat.toDigitsCore 10 fuel n [] ++ ds := by
  intro fuel
  induction fuel with
  | zero => intro n ds; simp [Nat.toDigitsCore]
  | succ fuel ih =>
    intro n ds
    simp only [Nat.toDigitsCore]
    by_cases h0 : n / 10 = 0
    · rw [if_pos h0, if_pos h0]; rfl
    · rw [if_neg h0, if_neg h0]
      rw [ih (n / 10) (Nat.digitChar (n % 10) :: ds),
        ih (n / 10) [Nat.digitChar (n % 10)]]
      simp

theorem digitChar_isDigitByte {m : Nat} (h : m < 10) :
    isDigitByte (Nat.digitChar m).toNat = true := by
  interval_cases m <;> decide

theorem digitChar_toNat {m : Nat} (h : m < 10) :
    (Nat.digitChar m).toNat = 48 + m := by
  interval_cases m <;> decide

theorem toDigitsCore_digits :
    ∀ (fuel n : Nat) (ds : List Char),
      (∀ c ∈ ds, isDigitByte c.toNat = true) →
      ∀ c ∈ Nat.toDigitsCore 10 fuel n ds, isDigitByte c.toNat = true := by
  intro fuel
  induction fuel with
  | zero => intro n ds h; simpa [Nat.toDigitsCore] using h
  | succ fuel ih =>
    intro n ds h
    simp only [Nat.toDigitsCore]
    by_cases h0 : n / 10 = 0
    · rw [if_pos h0]
      intro c hc
      rcases List.mem_cons.mp hc with rfl | hc
      · exact digitChar_isDigitByte (Nat.mod_lt _ (by norm_num))
      · exact h c hc
    · rw [if_neg h0]
      apply ih
      intro c hc
      rcases List.mem_cons.mp hc with rfl | hc
      · exact digitChar_isDigitByte (Nat.mod_lt _ (by norm_num))
      · exact h c hc

theorem decode_toDigitsCore :
    ∀ (fuel n : Nat), n < fuel → ∀ a : Nat,
      (Nat.toDigitsCore 10 fuel n []).foldl (fun x c => 10 * x + (c.toNat - 48)) a
        = a * 10 ^ (Nat.toDigitsCore 10 fuel n []).length + n := by
  intro fuel
  induction fuel with
  | zero => intro n h; omega
  | succ fuel ih =>
    intro n hn a
    have hmod10 : n % 10 < 10 := Nat.mod_lt _ (by norm_num)
    simp only [Nat.toDigitsCore]
    by_cases h0 : n / 10 = 0
    · rw [if_pos h0]
      have hn10 : n < 10 := by omega
      simp only [List.foldl, List.length_cons, List.length_nil]
      rw [digitChar_toNat hmod10]
      have hmod : n % 10 = n := Nat.mod_eq_of_lt hn10
      simp [hmod]
      omega
    · rw [if_neg h0]
      rw [toDigitsCore_append fuel (n / 10) [Nat.digitChar (n % 10)]]
      rw [List.foldl_append]
      have hlt : n / 10 < fuel := by
        have h1 : n / 10 < n := Nat.div_lt_self (by omega) (by norm_num)
        omega
      rw [ih (n / 10) hlt a]
      simp only [List.foldl, List.length_append, List.length_cons, List.length_nil]
      rw [digitChar_toNat hmod10, pow_succ]
      have hdm : 10 * (n / 10) + n % 10 = n := Nat.div_add_mod n 10
      calc 10 * (a * 10 ^ (Nat.toDigitsCore 10 fuel (n / 10) []).length + n / 10) +
            (48 + n % 10 - 48)
          = a * (10 ^ (Nat.toDigitsCore 10 fuel (n / 10) []).length * 10) +
            (10 * (n / 10) + n % 10) := by ring_nf; omega
        _ = a * (10 ^ (Nat.toDigitsCore 10 fuel (n / 10) []).length * 10) + n := by
            rw [hdm]

theorem repr_data (n : Nat) : (Nat.repr n).data = Nat.toDigits 10 n := rfl

theorem decodeDigitBytes_repr (n : Nat) :
    decodeDigitBytes (asciiBytes (Nat.repr n)) = n := by
  unfold decodeDigitBytes asciiBytes
  rw [repr_data, List.foldl_map]
  have h := decode_toDigitsCore (n + 1) n (Nat.lt_succ_self n) 0
  simpa [Nat.toDigits] using h

theorem repr_bytes_digits (n : Nat) :
    ∀ b ∈ asciiBytes (Nat.repr n), isDigitByte b = true := by
  intro b hb
  unfold asciiBytes at hb
  rw [repr_data] at hb
  rcases List.mem_map.mp hb with ⟨c, hc, rfl⟩
  unfold Nat.toDigits at hc
  exact toDigitsCore_digits (n + 1) n [] (by simp) c hc

theorem client_http_req_decomp (fm : PipelineReqBody → List Nat) :
    client_http_req fm =
      headerPreBytes ++ asciiBytes (Nat.repr (fm pipelineReq).length) ++
        (crlf2B ++ fm pipelineReq) := by
  simp [client_http_req, httpHeaderString, headerPreBytes, crlf2B,
    asciiBytes_append, List.append_assoc]

/-! ### Helper lemmas: the cycle machine -/

theorem perform_client_req_rng (fm : PipelineReqBody → List Nat)
    (gen : Nat → Nat → Bool) (seed rng : Nat) :
    (perform_client_req fm gen seed rng).2 = rng + 1 := by
  unfold perform_client_req send_client_msg gen_perform_client_req_fault
  by_cases h : gen seed rng <;> simp [h]

theorem runCycle_op (fm : PipelineReqBody → List Nat) (gen : Nat → Nat → Bool)
    (seed rng : Nat) (resp : List Nat) :
    (runCycle fm gen seed rng resp).1 = (perform_client_req fm gen seed rng).1 := by
  unfold runCycle
  rcases perform_client_req fm gen seed rng with ⟨op, rng'⟩
  rfl

theorem runCycle_rng (fm : PipelineReqBody → List Nat) (gen : Nat → Nat → Bool)
    (seed rng : Nat) (resp : List Nat) :
    (runCycle fm gen seed rng resp).2.1 = rng + 1 := by
  unfold runCycle
  have h := perform_client_req_rng fm gen seed rng
  rcases hE : perform_client_req fm gen seed rng with ⟨op, rng'⟩
  rw [hE] at h
  simpa using h

theorem runRng?_eq_some {fm : PipelineReqBody → List Nat} {gen : Nat → Nat → Bool}
    {seed : Nat} {env : Nat → List Nat} :
    ∀ {k rng : Nat}, runRng? fm gen seed env k = some rng → rng = k := by
  intro k
  induction k with
  | zero =>
    intro rng h
    simp [runRng?] at h
    omega
  | succ k ih =>
    intro rng h
    simp only [runRng?] at h
    split at h
    · simp at h
    · rename_i r hk
      have hr := ih hk
      have hrng := runCycle_rng fm gen seed r (env k)
      split at h
      · simp at h
        rw [← h, hrng, hr]
      · simp at h

theorem recv_normal_proceed_iff {buf : List Nat} {resp : ParsedResponse}
    {off : Nat} (h : parseResponse? buf = some (resp, off)) :
    on_client_recv_normal buf = RecvOutcome.proceed ↔ resp.code = 200 := by
  unfold on_client_recv_normal
  rw [h]
  by_cases hc : resp.code = 200
  · simp [hc]
  · simp only [hc, ne_eq, not_false_eq_true, if_true]
    cases utf8Decode? (buf.drop off) <;> simp [hc]

theorem recv_fuzz_proceed_iff {buf : List Nat} {resp : ParsedResponse}
    {off : Nat} (h : parseResponse? buf = some (resp, off)) :
    on_client_recv_fuzz buf = RecvOutcome.proceed ↔ resp.code = 400 := by
  unfold on_client_recv_fuzz
  rw [h]
  by_cases hc : resp.code = 400
  · simp [hc]
  · simp only [hc, ne_eq, not_false_eq_true, if_true]
    cases utf8Decode? (buf.drop off) <;> simp [hc]

theorem perform_client_req_normal (fm : PipelineReqBody → List Nat)
    (gen : Nat → Nat → Bool) (seed rng : Nat)
    (h : (gen_perform_client_req_fault gen seed rng).1 = PerformClientReqFault.Normal) :
    perform_client_req fm gen seed rng
      = (⟨client_http_req fm, (client_http_req fm).length, .Normal⟩, rng + 1) := by
  unfold gen_perform_client_req_fault at h
  unfold perform_client_req send_client_msg gen_perform_client_req_fault
  by_cases hg : gen seed rng
  · simp [hg]
  · simp [hg] at h

theorem perform_client_req_fuzz (fm : PipelineReqBody → List Nat)
    (gen : Nat → Nat → Bool) (seed rng : Nat)
    (h : (gen_perform_client_req_fault gen seed rng).1 = PerformClientReqFault.Fuzz) :
    perform_client_req fm gen seed rng
      = (⟨fuzzBytes, (client_http_req fm).length, .Fuzz⟩, rng + 1) := by
  unfold gen_perform_client_req_fault at h
  unfold perform_client_req send_client_msg gen_perform_client_req_fault
  by_cases hg : gen seed rng
  · simp [hg] at h
  · simp [hg]

theorem toDigits_length_pos (m : Nat) : 0 < (Nat.toDigits 10 m).length := by
  unfold Nat.toDigits
  simp only [Nat.toDigitsCore]
  by_cases h : m / 10 = 0
  · rw [if_pos h]
    simp
  · rw [if_neg h, toDigitsCore_append]
    simp

/-! ### Claim theorems -/

/-- C1: for a fixed seed, the fault decision drawn at cycle `k` and the send
operation (buffer and length) submitted at cycle `k` are identical in any
two runs that reach cycle `k`, whatever responses each run's environment
delivered. -/
theorem fault_sequence_seed_deterministic (fm : PipelineReqBody → List Nat)
    (gen : Nat → Nat → Bool) (seed : Nat) (env₁ env₂ : Nat → List Nat)
    (k r₁ r₂ : Nat)
    (h₁ : runRng? fm gen seed env₁ k = some r₁)
    (h₂ : runRng? fm gen seed env₂ k = some r₂) :
    cycleFault? fm gen seed env₁ k = cycleFault? fm gen seed env₂ k ∧
      cycleSendOp? fm gen seed env₁ k = cycleSendOp? fm gen seed env₂ k := by
  have e₁ := runRng?_eq_some h₁
  have e₂ := runRng?_eq_some h₂
  subst e₁
  subst e₂
  constructor
  · unfold cycleFault?
    rw [h₁, h₂]
  · unfold cycleSendOp?
    rw [h₁, h₂]
    simp only [Option.map_some']
    rw [runCycle_op, runCycle_op]

/-- Witness for C1 at a concrete seed, two different environments and
cycle 2. -/
theorem fault_sequence_seed_deterministic_witness :
    runRng? demoFormatMsg genAllNormal 7 envOk200 2 = some 2 ∧
      runRng? demoFormatMsg genAllNormal 7 (fun _ => ok200Resp ++ asciiBytes "x") 2
        = some 2 ∧
      cycleFault? demoFormatMsg genAllNormal 7 envOk200 2
          = cycleFault? demoFormatMsg genAllNormal 7
              (fun _ => ok200Resp ++ asciiBytes "x") 2 ∧
        cycleSendOp? demoFormatMsg genAllNormal 7 envOk200 2
          = cycleSendOp? demoFormatMsg genAllNormal 7
              (fun _ => ok200Resp ++ asciiBytes "x") 2 :=
  ⟨by decide, by decide,
    fault_sequence_seed_deterministic demoFormatMsg genAllNormal 7 envOk200
      (fun _ => ok200Resp ++ asciiBytes "x") 2 2 2 (by decide) (by decide)⟩

/-- C5: whenever a run reaches cycle `k`, the generator state there is
exactly `k` draws (the fault decision is drawn exactly once per cycle, so
cycle index alone determines generator state), and the cycle's single draw
advances the state by exactly one regardless of the response or of which
fault class results. -/
theorem one_draw_per_cycle (fm : PipelineReqBody → List Nat)
    (gen : Nat → Nat → Bool) (seed : Nat) (env : Nat → List Nat) (k rng : Nat)
    (h : runRng? fm gen seed env k = some rng) :
    rng = k ∧ ∀ resp : List Nat, (runCycle fm gen seed rng resp).2.1 = rng + 1 :=
  ⟨runRng?_eq_some h, fun resp => runCycle_rng fm gen seed rng resp⟩

/-- Witness for C5 at seed 3, the all-200 environment and cycle 2. -/
theorem one_draw_per_cycle_witness :
    runRng? demoFormatMsg genAllNormal 3 envOk200 2 = some 2 ∧
      (2 = 2 ∧ ∀ resp : List Nat,
        (runCycle demoFormatMsg genAllNormal 3 2 resp).2.1 = 2 + 1) :=
  ⟨by decide,
    one_draw_per_cycle demoFormatMsg genAllNormal 3 envOk200 2 2 (by decide)⟩

/-- C4: for every serialized protocol body the encoder produces, the
`Content-Length` value written into the HTTP framing of the request built on
the "normal" path decodes to the exact byte length of the serialized body,
and the bytes appended after the header are exactly that body. -/
theorem content_length_matches_body (fm : PipelineReqBody → List Nat) :
    decodeDigitBytes (contentLengthDigits (client_http_req fm))
        = (fm pipelineReq).length ∧
      (client_http_req fm).drop
          (asciiBytes (httpHeaderString (fm pipelineReq).length)).length
        = fm pipelineReq := by
  constructor
  · unfold contentLengthDigits
    rw [client_http_req_decomp, List.append_assoc, List.drop_left,
      List.takeWhile_append_of_pos (repr_bytes_digits _)]
    have hcr : crlf2B ++ fm pipelineReq
        = 13 :: (asciiBytes "\n\r\n" ++ fm pipelineReq) := rfl
    rw [hcr, List.takeWhile_cons_of_neg (by decide)]
    simp [decodeDigitBytes_repr]
  · exact List.drop_left _ _

/-- C2: for every request cycle, the response status the oracle expects is
determined by the cycle's fault class: the receive continuation registered
for a Normal cycle validates (proceeds) exactly on status 200 and the one
registered for a Fuzz cycle exactly on status 400; any other observed status
for that class terminates the run. -/
theorem oracle_expected_status_by_class (f : PerformClientReqFault)
    (buf : List Nat) (resp : ParsedResponse) (off : Nat)
    (h : parseResponse? buf = some (resp, off)) :
    recvHandlerFor f buf = RecvOutcome.proceed ↔ resp.code = expectedStatus f := by
  cases f
  · exact recv_normal_proceed_iff h
  · exact recv_fuzz_proceed_iff h

/-- Witness for C2: the Normal-class handler on a concrete 200 response. -/
theorem oracle_expected_status_by_class_witness :
    parseResponse? ok200Resp
        = some (⟨200, asciiBytes "HTTP/1.1 200 OK"⟩, 19) ∧
      (recvHandlerFor PerformClientReqFault.Normal ok200Resp
          = RecvOutcome.proceed
        ↔ (ParsedResponse.mk 200 (asciiBytes "HTTP/1.1 200 OK")).code
            = expectedStatus PerformClientReqFault.Normal) :=
  ⟨by decide,
    oracle_expected_status_by_class PerformClientReqFault.Normal ok200Resp
      ⟨200, asciiBytes "HTTP/1.1 200 OK"⟩ 19 (by decide)⟩

/-- C3 counterexample: at a concrete configuration, whichever of its two
values the fault draw takes (and `Normal`/`Fuzz` are the only fault classes
the simulator has), the transmitted buffer is nonempty — there is no
"empty" class and no zero-length transmission. -/
theorem no_empty_fault_class_cex :
    (gen_perform_client_req_fault genAllNormal 0 0).1 = PerformClientReqFault.Normal ∧
      (gen_perform_client_req_fault genAllFuzz 0 0).1 = PerformClientReqFault.Fuzz ∧
      (send_client_msg genAllNormal 0 0 (client_http_req demoFormatMsg)
          (client_http_req demoFormatMsg).length).1.buf ≠ [] ∧
      (send_client_msg genAllFuzz 0 0 (client_http_req demoFormatMsg)
          (client_http_req demoFormatMsg).length).1.buf ≠ [] := by
  decide

/-- C3 amended: the simulator has no empty-fault class; its only injected
fault is the corruption class — when the draw yields Fuzz the client
transmits the literal `FUZZ FUZZ FUZZ` instead of the built request, wired
to the 400-expecting continuation — and no draw ever produces a zero-length
transmission. -/
theorem corruption_fault_cycle_amended (gen : Nat → Nat → Bool)
    (seed rng : Nat) (buf : List Nat) (n : Nat) (hbuf : buf ≠ []) :
    (send_client_msg gen seed rng buf n).1.buf ≠ [] ∧
      ((gen_perform_client_req_fault gen seed rng).1 = PerformClientReqFault.Fuzz →
        (send_client_msg gen seed rng buf n).1.buf = fuzzBytes ∧
          (send_client_msg gen seed rng buf n).1.handler = PerformClientReqFault.Fuzz ∧
          expectedStatus PerformClientReqFault.Fuzz = 400) := by
  unfold send_client_msg gen_perform_client_req_fault
  by_cases hg : gen seed rng
  · simp [hg, hbuf]
  · simp [hg, expectedStatus]
    decide

/-- Witness for the amended C3 at a concrete all-Fuzz generator. -/
theorem corruption_fault_cycle_amended_witness :
    (asciiBytes "x" ≠ ([] : List Nat)) ∧
      ((send_client_msg genAllFuzz 0 0 (asciiBytes "x") 1).1.buf ≠ [] ∧
        ((gen_perform_client_req_fault genAllFuzz 0 0).1 = PerformClientReqFault.Fuzz →
          (send_client_msg genAllFuzz 0 0 (asciiBytes "x") 1).1.buf = fuzzBytes ∧
            (send_client_msg genAllFuzz 0 0 (asciiBytes "x") 1).1.handler
              = PerformClientReqFault.Fuzz ∧
            expectedStatus PerformClientReqFault.Fuzz = 400)) :=
  ⟨by decide, corruption_fault_cycle_amended genAllFuzz 0 0 (asciiBytes "x") 1 (by decide)⟩

/-- C6: whenever the fault draw yields Fuzz, the bytes handed to the
scheduler's send are exactly the 14-byte literal `FUZZ FUZZ FUZZ`, and the
continuation registered for the cycle is the 400-expecting fuzz oracle. -/
theorem fuzz_sends_literal_noise (fm : PipelineReqBody → List Nat)
    (gen : Nat → Nat → Bool) (seed rng : Nat)
    (h : (gen_perform_client_req_fault gen seed rng).1 = PerformClientReqFault.Fuzz) :
    (perform_client_req fm gen seed rng).1.buf = asciiBytes "FUZZ FUZZ FUZZ" ∧
      (perform_client_req fm gen seed rng).1.buf.length = 14 ∧
      (perform_client_req fm gen seed rng).1.handler = PerformClientReqFault.Fuzz ∧
      ∀ (rbuf : List Nat) (resp : ParsedResponse) (off : Nat),
        parseResponse? rbuf = some (resp, off) →
        (recvHandlerFor (perform_client_req fm gen seed rng).1.handler rbuf
            = RecvOutcome.proceed ↔ resp.code = 400) := by
  rw [perform_client_req_fuzz fm gen seed rng h]
  refine ⟨rfl, rfl, rfl, ?_⟩
  intro rbuf resp off hp
  exact recv_fuzz_proceed_iff hp

/-- Witness for C6 at a concrete all-Fuzz generator. -/
theorem fuzz_sends_literal_noise_witness :
    (gen_perform_client_req_fault genAllFuzz 5 0).1 = PerformClientReqFault.Fuzz ∧
      ((perform_client_req demoFormatMsg genAllFuzz 5 0).1.buf
          = asciiBytes "FUZZ FUZZ FUZZ" ∧
        (perform_client_req demoFormatMsg genAllFuzz 5 0).1.buf.length = 14 ∧
        (perform_client_req demoFormatMsg genAllFuzz 5 0).1.handler
          = PerformClientReqFault.Fuzz ∧
        ∀ (rbuf : List Nat) (resp : ParsedResponse) (off : Nat),
          parseResponse? rbuf = some (resp, off) →
          (recvHandlerFor (perform_client_req demoFormatMsg genAllFuzz 5 0).1.handler
              rbuf = RecvOutcome.proceed ↔ resp.code = 400)) :=
  ⟨by decide, fuzz_sends_literal_noise demoFormatMsg genAllFuzz 5 0 (by decide)⟩

/-- C8: the request built every cycle is the pipelined execute of
`SELECT 1` with `want_rows = some true`, and on a Normal cycle whose
response parses with status 200 the driver validates, proceeds, and the run
reaches the next cycle (one more draw consumed) without terminating. -/
theorem normal_cycle_select_one_continues (fm : PipelineReqBody → List Nat)
    (gen : Nat → Nat → Bool) (seed : Nat) (env : Nat → List Nat)
    (k rng : Nat) (resp : ParsedResponse) (off : Nat)
    (h : runRng? fm gen seed env k = some rng)
    (hN : (gen_perform_client_req_fault gen seed rng).1 = PerformClientReqFault.Normal)
    (hp : parseResponse? (env k) = some (resp, off))
    (hc : resp.code = 200) :
    selectOneStmt.sql = some "SELECT 1" ∧
      selectOneStmt.want_rows = some true ∧
      pipelineReq.requests = [StreamRequest.Execute ⟨selectOneStmt⟩] ∧
      (runCycle fm gen seed rng (env k)).1.buf = client_http_req fm ∧
      (runCycle fm gen seed rng (env k)).2.2 = RecvOutcome.proceed ∧
      runRng? fm gen seed env (k + 1) = some (rng + 1) := by
  have hop : runCycle fm gen seed rng (env k)
      = (⟨client_http_req fm, (client_http_req fm).length, .Normal⟩, rng + 1,
          on_client_recv_normal (env k)) := by
    unfold runCycle
    rw [perform_client_req_normal fm gen seed rng hN]
    rfl
  have hout : on_client_recv_normal (env k) = RecvOutcome.proceed :=
    (recv_normal_proceed_iff hp).mpr hc
  refine ⟨rfl, rfl, rfl, ?_, ?_, ?_⟩
  · rw [hop]
  · rw [hop]
    exact hout
  · simp only [runRng?, h]
    rw [hop]
    simp [hout]

/-- Witness for C8 at a concrete all-Normal generator and 200 responses. -/
theorem normal_cycle_select_one_continues_witness :
    runRng? demoFormatMsg genAllNormal 1 envOk200 0 = some 0 ∧
      (gen_perform_client_req_fault genAllNormal 1 0).1
        = PerformClientReqFault.Normal ∧
      parseResponse? (envOk200 0)
        = some (⟨200, asciiBytes "HTTP/1.1 200 OK"⟩, 19) ∧
      (ParsedResponse.mk 200 (asciiBytes "HTTP/1.1 200 OK")).code = 200 ∧
      (selectOneStmt.sql = some "SELECT 1" ∧
        selectOneStmt.want_rows = some true ∧
        pipelineReq.requests = [StreamRequest.Execute ⟨selectOneStmt⟩] ∧
        (runCycle demoFormatMsg genAllNormal 1 0 (envOk200 0)).1.buf
          = client_http_req demoFormatMsg ∧
        (runCycle demoFormatMsg genAllNormal 1 0 (envOk200 0)).2.2
          = RecvOutcome.proceed ∧
        runRng? demoFormatMsg genAllNormal 1 envOk200 (0 + 1) = some (0 + 1)) :=
  ⟨by decide, by decide, by decide, by decide,
    normal_cycle_select_one_continues demoFormatMsg genAllNormal 1 envOk200 0 0
      ⟨200, asciiBytes "HTTP/1.1 200 OK"⟩ 19 (by decide) (by decide) (by decide)
      (by decide)⟩

/-- C9: on a fuzzed cycle the expected-length argument handed to the
scheduler's send equals the byte length of the well-formed HTTP request
built for the cycle, not the 14-byte length of the `FUZZ FUZZ FUZZ` buffer
actually submitted. -/
theorem fuzz_send_length_is_request_length (fm : PipelineReqBody → List Nat)
    (gen : Nat → Nat → Bool) (seed rng : Nat)
    (h : (gen_perform_client_req_fault gen seed rng).1 = PerformClientReqFault.Fuzz) :
    (perform_client_req fm gen seed rng).1.n = (client_http_req fm).length ∧
      (perform_client_req fm gen seed rng).1.buf.length = 14 ∧
      (perform_client_req fm gen seed rng).1.n ≠ 14 := by
  rw [perform_client_req_fuzz fm gen seed rng h]
  refine ⟨rfl, rfl, ?_⟩
  have hlen : (client_http_req fm).length
      = headerPreBytes.length +
          ((asciiBytes (Nat.repr (fm pipelineReq).length)).length +
            (crlf2B.length + (fm pipelineReq).length)) := by
    rw [client_http_req_decomp]
    simp [List.length_append]
  have h1 : headerPreBytes.length = 66 := by decide
  have h2 : 0 < (asciiBytes (Nat.repr (fm pipelineReq).length)).length := by
    unfold asciiBytes
    rw [List.length_map, repr_data]
    exact toDigits_length_pos _
  simp only [hlen, h1]
  omega

/-- Witness for C9 at a concrete all-Fuzz generator. -/
theorem fuzz_send_length_is_request_length_witness :
    (gen_perform_client_req_fault genAllFuzz 2 0).1 = PerformClientReqFault.Fuzz ∧
      ((perform_client_req demoFormatMsg genAllFuzz 2 0).1.n
          = (client_http_req demoFormatMsg).length ∧
        (perform_client_req demoFormatMsg genAllFuzz 2 0).1.buf.length = 14 ∧
        (perform_client_req demoFormatMsg genAllFuzz 2 0).1.n ≠ 14) :=
  ⟨by decide, fuzz_send_length_is_request_length demoFormatMsg genAllFuzz 2 0 (by decide)⟩

/-- C7 counterexample: a response with mismatching status 500 whose body is
the invalid-UTF-8 byte `0xFF` makes the normal handler terminate through the
`from_utf8` unwrap panic — not through the fatal assertion, and with nothing
printed — refuting the claim that every status mismatch prints the parsed
response and body before a fatal assertion. -/
theorem mismatch_nonutf8_no_print_cex :
    (parseResponse? c7Buf).map (fun p => p.1.code) = some 500 ∧
      on_client_recv_normal c7Buf = RecvOutcome.panicked := by
  decide

/-- C7 amended: if the observed status differs from the status the cycle's
class expects and the response body is valid UTF-8, the run terminates via
the fatal assertion after printing the parsed response and the decoded body;
when the body is not valid UTF-8 it terminates via the decoding panic with
nothing printed. -/
theorem mismatch_prints_then_asserts_amended (buf : List Nat)
    (resp : ParsedResponse) (off : Nat) (body : List Char)
    (hp : parseResponse? buf = some (resp, off))
    (hu : utf8Decode? (buf.drop off) = some body) :
    (resp.code ≠ 200 →
        on_client_recv_normal buf = RecvOutcome.fatalAssert resp body) ∧
      (resp.code ≠ 400 →
        on_client_recv_fuzz buf = RecvOutcome.fatalAssert resp body) := by
  constructor
  · intro hc
    unfold on_client_recv_normal
    rw [hp]
    simp [hc, hu]
  · intro hc
    unfold on_client_recv_fuzz
    rw [hp]
    simp [hc, hu]

/-- Witness for the amended C7 on a concrete 500 response with UTF-8 body
`err`. -/
theorem mismatch_prints_then_asserts_amended_witness :
    parseResponse? c7GoodBuf
        = some (⟨500, asciiBytes "HTTP/1.1 500 Oops"⟩, 21) ∧
      utf8Decode? (c7GoodBuf.drop 21) = some ['e', 'r', 'r'] ∧
      (((ParsedResponse.mk 500 (asciiBytes "HTTP/1.1 500 Oops")).code ≠ 200 →
          on_client_recv_normal c7GoodBuf
            = RecvOutcome.fatalAssert ⟨500, asciiBytes "HTTP/1.1 500 Oops"⟩
                ['e', 'r', 'r']) ∧
        ((ParsedResponse.mk 500 (asciiBytes "HTTP/1.1 500 Oops")).code ≠ 400 →
          on_client_recv_fuzz c7GoodBuf
            = RecvOutcome.fatalAssert ⟨500, asciiBytes "HTTP/1.1 500 Oops"⟩
                ['e', 'r', 'r'])) :=
  ⟨by decide, by decide,
    mismatch_prints_then_asserts_amended c7GoodBuf
      ⟨500, asciiBytes "HTTP/1.1 500 Oops"⟩ 21 ['e', 'r', 'r'] (by decide)
      (by decide)⟩

/-- C10: if the `SEED` environment variable is set but does not parse as an
unsigned 64-bit integer, startup panics right after logger initialization:
no database is created, no socket is bound or connected, and the simulation
loop is never entered. -/
theorem bad_seed_env_panics_before_startup (s : String) (fresh : Nat)
    (h : parse_u64? s = none) :
    (main_startup (some s) fresh).2 = true ∧
      (main_startup (some s) fresh).1 = [StartupEvent.logInit] ∧
      StartupEvent.dbCreated TEST_DATABASE_NAME ∉ (main_startup (some s) fresh).1 ∧
      StartupEvent.serverBound ∉ (main_startup (some s) fresh).1 ∧
      StartupEvent.clientConnectIssued ∉ (main_startup (some s) fresh).1 ∧
      StartupEvent.loopEntered ∉ (main_startup (some s) fresh).1 := by
  simp [main_startup, h]

/-- Witness for C10 on the unparsable seed string `not-a-number`. -/
theorem bad_seed_env_panics_before_startup_witness :
    parse_u64? "not-a-number" = none ∧
      ((main_startup (some "not-a-number") 0).2 = true ∧
        (main_startup (some "not-a-number") 0).1 = [StartupEvent.logInit] ∧
        StartupEvent.dbCreated TEST_DATABASE_NAME
            ∉ (main_startup (some "not-a-number") 0).1 ∧
        StartupEvent.serverBound ∉ (main_startup (some "not-a-number") 0).1 ∧
        StartupEvent.clientConnectIssued
            ∉ (main_startup (some "not-a-number") 0).1 ∧
        StartupEvent.loopEntered ∉ (main_startup (some "not-a-number") 0).1) :=
  ⟨by decide, bad_seed_env_panics_before_startup "not-a-number" 0 (by decide)⟩

end HiisiSim
